import Mathlib

/-
Shallow embedding of the token-disperser bot (src/bot.js).

The repository holds two script variants in one file:
  * variant 1 (the batch sender): createValidProvider, buildFallbackProvider,
    BatchNonceManager, and main() with the balance checks, the batch loop,
    the per-transaction retry loop and the final summary;
  * variant 2 (the auto-sweeper): the same provider code plus
    checkBalanceAndSend, which drains the balance to the first address.

JavaScript BigInt quantities (wei amounts, chain ids, nonces) are embedded as
Nat, or as Int where a subtraction can go negative.  JavaScript Number
arithmetic in the summary is embedded as exact rationals together with an
explicit JsNum type so that division by zero yields NaN as in JS.
External effects (the node answering getNetwork / getBlockNumber,
wallet.getNonce, wallet.sendTransaction) are oracles passed in as functions.
-/

namespace TokenDisperser

/-- A record of chains.json: name, chainId, symbol, candidate RPC urls,
optional explorer prefix. -/
structure Chain where
  name : String
  chainId : Nat
  symbol : String
  rpc : List String
  explorer : Option String
  deriving Repr, DecidableEq

/-- The network object ethers providers report from getNetwork. -/
structure Network where
  name : String
  chainId : Nat
  deriving Repr, DecidableEq

/-- Observable behaviour of one remote endpoint: the chain id the node itself
would answer to a genuine network detection, and whether its
getBlockNumber call completes. -/
structure EndpointBehavior where
  actualChainId : Nat
  blockNumberOk : Bool
  deriving Repr, DecidableEq

/-- A live provider handle as createValidProvider returns it: the url and the
network its (overridden) getNetwork reports. -/
structure Provider where
  url : String
  network : Network
  deriving Repr, DecidableEq

/-- Embedding of createValidProvider (src/bot.js lines 24-46).  The source
builds staticNetwork from the expected chain and then REPLACES both
provider.getNetwork and provider.detectNetwork with functions returning
staticNetwork (lines 33-34) before it reads
actualChainId = (await provider.getNetwork()).chainId (line 37).  The value
compared on line 38 is therefore always the pinned chain id, never
beh.actualChainId; the mismatch throw on line 39 is dead code.  Validation
then succeeds exactly when the height query getBlockNumber (line 41)
completes; any throw is wrapped into the RPC Failed error (line 44). -/
def createValidProvider (url : String) (beh : EndpointBehavior) (chain : Chain) :
    Except String Provider :=
  let staticNetwork : Network := { name := chain.name, chainId := chain.chainId }
  let getNetwork : Unit → Network := fun _ => staticNetwork
  let actualChainId := (getNetwork ()).chainId
  if actualChainId ≠ staticNetwork.chainId then
    Except.error ("RPC Failed: " ++ url ++ " - Chain ID mismatch")
  else if beh.blockNumberOk then
    Except.ok { url := url, network := staticNetwork }
  else
    Except.error ("RPC Failed: " ++ url ++ " - getBlockNumber failed")

/-- The aggregate fallback provider: the validated sub-providers, the ethers
quorum argument, and the network its overridden getNetwork reports. -/
structure FallbackProvider where
  providers : List Provider
  quorum : Nat
  network : Network
  deriving Repr, DecidableEq

/-- Embedding of buildFallbackProvider (src/bot.js lines 48-81): validate each
candidate url in order, keep the successes (the loop pushes on success and
only logs on failure), fail when none validated, otherwise build the
FallbackProvider with quorum 1 and override its getNetwork / detectNetwork
with the enforcedNetwork record pinned from the chain descriptor. -/
def buildFallbackProvider (chain : Chain) (beh : String → EndpointBehavior) :
    Except String FallbackProvider :=
  let providers := chain.rpc.filterMap fun url =>
    (createValidProvider url (beh url) chain).toOption
  if providers.length = 0 then
    Except.error "No working RPC endpoints available"
  else
    Except.ok { providers := providers, quorum := 1,
                network := { name := chain.name, chainId := chain.chainId } }

/-- State of BatchNonceManager (src/bot.js lines 83-102).  currentNonce is
null in the constructor, hence Option Nat.  reads counts how many
wallet.getNonce() calls have happened, so that an oracle getNonce : Nat → Nat
can supply the value of each successive read. -/
structure BatchNonceManager where
  currentNonce : Option Nat
  nextAvailable : Nat
  reads : Nat
  deriving Repr, DecidableEq

/-- The constructor (lines 84-89): currentNonce = null, nextAvailable = 0. -/
def BatchNonceManager.new : BatchNonceManager :=
  { currentNonce := none, nextAvailable := 0, reads := 0 }

/-- JavaScript falsiness of this.currentNonce: both null and the number 0 are
falsy, so the guard on line 97 fires again after a successful initialization
whenever the cached nonce is 0. -/
def nonceFalsy : Option Nat → Bool
  | none => true
  | some n => n == 0

/-- Embedding of BatchNonceManager.initialize (lines 91-94): one
wallet.getNonce() read; both currentNonce and nextAvailable are set to it. -/
def initBaseline (getNonce : Nat → Nat) (m : BatchNonceManager) : BatchNonceManager :=
  let v := getNonce m.reads
  { currentNonce := some v, nextAvailable := v, reads := m.reads + 1 }

/-- Embedding of BatchNonceManager.getNextBatchNonces (lines 96-101):
if (!this.currentNonce) await this.initialize();
then return count consecutive integers from nextAvailable and advance it. -/
def getNextBatchNonces (getNonce : Nat → Nat) (m : BatchNonceManager) (count : Nat) :
    List Nat × BatchNonceManager :=
  let m1 := if nonceFalsy m.currentNonce then initBaseline getNonce m else m
  ((List.range count).map fun i => m1.nextAvailable + i,
   { m1 with nextAvailable := m1.nextAvailable + count })

/-- The constant BATCH_SIZE of main() (src/bot.js line 236). -/
def BATCH_SIZE : Nat := 5

/-- The constant RETRY_ATTEMPTS of main() (src/bot.js line 237). -/
def RETRY_ATTEMPTS : Nat := 3

/-- The batch loop of main() (src/bot.js lines 244-246) restricted to its
partitioning and nonce-allocation effect: for each step of BATCH_SIZE the
slice batch = addresses.slice(batchIndex, batchIndex + BATCH_SIZE) is taken
and getNextBatchNonces(batch.length) is awaited before the next iteration.
Returns the (batch, batchNonces) pairs in loop order. -/
def batchLoop (getNonce : Nat → Nat) (m : BatchNonceManager) (addresses : List String) :
    List (List String × List Nat) :=
  match addresses with
  | [] => []
  | a :: rest =>
    let batch := (a :: rest).take BATCH_SIZE
    let p := getNextBatchNonces getNonce m batch.length
    (batch, p.1) :: batchLoop getNonce p.2 ((a :: rest).drop BATCH_SIZE)
termination_by addresses.length
decreasing_by simp [BATCH_SIZE]; omega

/-- Result of one wallet.sendTransaction call: either the transport accepted
the signed submission (returning a hash) or it threw
(shortMessage / message and a code). -/
inductive SubmitResult where
  | accepted (hash : String)
  | failed (msg : String) (code : Nat)
  deriving Repr, DecidableEq

/-- The per-recipient result object built inside the retry loop
(src/bot.js lines 273-287). -/
structure Outcome where
  success : Bool
  hash : String := ""
  errMsg : String := ""
  code : Nat := 0
  address : String
  deriving Repr, DecidableEq

/-- Embedding of the retry loop (src/bot.js lines 268-291):
attempts starts at 0; while (attempts < RETRY_ATTEMPTS) it increments
attempts, tries sendTransaction (the oracle attempt, indexed by the 1-based
attempt number), returns the success object on acceptance, on a throw returns
the failure object when attempts === RETRY_ATTEMPTS and otherwise sleeps
1000 * attempts ms and loops.  The Option models that the JS callback would
return undefined if the while loop ever exited normally; the delays the loop
slept are accumulated in order. -/
def retryFrom (attempt : Nat → SubmitResult) (addr : String)
    (attempts : Nat) (delays : List Nat) : Option Outcome × Nat × List Nat :=
  if attempts < RETRY_ATTEMPTS then
    let a := attempts + 1
    match attempt a with
    | SubmitResult.accepted h =>
        (some { success := true, hash := h, address := addr }, a, delays)
    | SubmitResult.failed msg code =>
        if a = RETRY_ATTEMPTS then
          (some { success := false, errMsg := msg, code := code, address := addr }, a, delays)
        else
          retryFrom attempt addr a (delays ++ [1000 * a])
  else
    (none, attempts, delays)
termination_by RETRY_ATTEMPTS - attempts
decreasing_by simp [RETRY_ATTEMPTS] at *; omega

/-- One full submission with retry, as dispatched for one transaction of a
batch: the loop body entered with attempts = 0 and no sleeps yet. -/
def sendWithRetry (attempt : Nat → SubmitResult) (addr : String) :
    Option Outcome × Nat × List Nat :=
  retryFrom attempt addr 0 []

/-- The whole dispatch (src/bot.js lines 244-291) at outcome granularity for
the native-coin branch, where each transaction's outcome address is the
recipient: every batch from the batch loop is submitted via Promise.all,
one sendWithRetry per recipient, and the per-batch result arrays appear in
batch order.  attempt is the submission oracle, indexed by recipient and
1-based attempt number. -/
def dispatchAll (attempt : String → Nat → SubmitResult) (getNonce : Nat → Nat)
    (m : BatchNonceManager) (addresses : List String) : List (Option Outcome) :=
  (batchLoop getNonce m addresses).flatMap fun bp =>
    bp.1.map fun addr => (sendWithRetry (attempt addr) addr).1

/-- A JavaScript Number as the summary arithmetic needs it: a finite value
(embedded as an exact rational), NaN, or a signed infinity. -/
inductive JsNum where
  | num (q : ℚ)
  | nan
  | inf
  | ninf
  deriving Repr, DecidableEq

/-- JavaScript division on JsNum operands that are finite: 0 / 0 is NaN and
x / 0 for x ≠ 0 is a signed infinity, as in IEEE / JS semantics. -/
def jsDiv (a b : ℚ) : JsNum :=
  if b = 0 then
    if a = 0 then JsNum.nan else if a > 0 then JsNum.inf else JsNum.ninf
  else
    JsNum.num (a / b)

/-- JavaScript multiplication of a JsNum by a finite constant. -/
def jsMulConst (x : JsNum) (c : ℚ) : JsNum :=
  match x with
  | JsNum.num q => JsNum.num (q * c)
  | JsNum.nan => JsNum.nan
  | JsNum.inf => if c > 0 then JsNum.inf else if c < 0 then JsNum.ninf else JsNum.nan
  | JsNum.ninf => if c > 0 then JsNum.ninf else if c < 0 then JsNum.inf else JsNum.nan

/-- The final session summary record (src/bot.js lines 315-326). -/
structure Summary where
  totalSent : Nat
  successRate : JsNum
  successCount : Nat
  totalCount : Nat
  deriving Repr, DecidableEq

/-- Embedding of the summary computation (src/bot.js lines 315-320):
successCount is incremented once per result with result.success across all
batches; totalSent = parsedAmount * BigInt(successCount); successRate =
(successCount / addresses.length) * 100, computed in JS Number arithmetic
with no guard for an empty address list. -/
def summarize (parsedAmount : Nat) (addresses : List String) (outcomes : List Outcome) :
    Summary :=
  let successCount := (outcomes.filter fun o => o.success).length
  { totalSent := parsedAmount * successCount,
    successRate := jsMulConst (jsDiv successCount addresses.length) 100,
    successCount := successCount,
    totalCount := addresses.length }

/-- Embedding of the ERC20 sufficiency check (src/bot.js lines 181-185):
if parsedAmount * BigInt(addresses.length) > balance, throw the insufficient
token balance error; its message reports the needed total
parsedAmount * addresses.length (the error payload here). -/
def erc20BalanceCheck (balance parsedAmount addressCount : Nat) : Except Nat Unit :=
  if parsedAmount * addressCount > balance then
    Except.error (parsedAmount * addressCount)
  else
    Except.ok ()

/-- Embedding of the native-coin sufficiency check (src/bot.js lines 201-205):
same comparison and same reported quantity as the ERC20 branch. -/
def nativeBalanceCheck (balance parsedAmount addressCount : Nat) : Except Nat Unit :=
  if parsedAmount * addressCount > balance then
    Except.error (parsedAmount * addressCount)
  else
    Except.ok ()

/-- The hardcoded gas fee of variant 2 (src/bot.js variant 2,
checkBalanceAndSend): ethers.parseEther of 0.00016, in wei. -/
def gasFee : Int := 160000000000000

/-- What one checkBalanceAndSend tick does that is externally visible. -/
inductive SweepAction where
  | sent (recipient : Option String) (value : Int)
  | insufficient
  deriving Repr, DecidableEq

/-- Embedding of checkBalanceAndSend from variant 2 (the auto-sweeper): read
the balance once, compute sendAmount = balance - gasFee, and if it is
positive send the WHOLE sendAmount in a single transaction to addresses[0]
(none when the list is empty, as JS would index undefined); otherwise print
the insufficient-balance notice and send nothing.  There is no division by
the recipient count and no thrown error in either branch. -/
def checkBalanceAndSend (balance : Int) (addresses : List String) : SweepAction :=
  let sendAmount := balance - gasFee
  if sendAmount > 0 then
    SweepAction.sent addresses.head? sendAmount
  else
    SweepAction.insufficient

/-- A transaction request as the native-coin branch of the batch loop builds
it (src/bot.js lines 260-265): recipient, value, nonce and gas limit. -/
structure Tx where
  toAddr : String
  value : Nat
  nonce : Nat
  gasLimit : Nat
  deriving Repr, DecidableEq

/-- The session prefix that decides whether any TransactionIntent is ever
built: main() constructs the fallback provider (line 129) before the batch
loop (lines 244-266) maps each batch to transaction objects; a throw from
buildFallbackProvider reaches the catch and no transaction is ever built.
On success the intents carry the nonces allocated batch by batch. -/
def sessionIntents (chain : Chain) (beh : String → EndpointBehavior)
    (getNonce : Nat → Nat) (addresses : List String)
    (parsedAmount gasLimit : Nat) : Except String (List Tx) :=
  match buildFallbackProvider chain beh with
  | Except.error e => Except.error e
  | Except.ok _ =>
      let m0 := initBaseline getNonce BatchNonceManager.new
      Except.ok ((batchLoop getNonce m0 addresses).flatMap fun bp =>
        (bp.1.zip bp.2).map fun p =>
          { toAddr := p.1, value := parsedAmount, nonce := p.2, gasLimit := gasLimit })

/-- The earliest attempt number in 1..RETRY_ATTEMPTS at which the submission
oracle accepts, if any: the specification-side description of where the retry
loop stops. -/
def firstAcceptedAttempt (attempt : Nat → SubmitResult) : Option Nat :=
  (List.range' 1 RETRY_ATTEMPTS).find? fun k =>
    match attempt k with
    | SubmitResult.accepted _ => true
    | SubmitResult.failed _ _ => false

/-- Example fixture: a chain descriptor with two candidate RPC urls. -/
def chainEx : Chain :=
  { name := "Ethereum", chainId := 1, symbol := "ETH",
    rpc := ["rpc1", "rpc2"], explorer := none }

/-- Example fixture: every endpoint fails its height query. -/
def behDead : String → EndpointBehavior :=
  fun _ => { actualChainId := 1, blockNumberOk := false }

/-- Example fixture: only rpc1 answers, and it actually sits on chain 999. -/
def behOne : String → EndpointBehavior := fun url =>
  if url = "rpc1" then { actualChainId := 999, blockNumberOk := true }
  else { actualChainId := 42, blockNumberOk := false }

/-- Example fixture: a submission oracle failing on attempts 1 and 2 and
accepted on attempt 3. -/
def attemptOkThird : Nat → SubmitResult := fun k =>
  if k = 3 then SubmitResult.accepted "0xabc" else SubmitResult.failed "boom" 32000

/-- Example fixture: a submission oracle failing on every attempt. -/
def attemptAllFail : Nat → SubmitResult :=
  fun _ => SubmitResult.failed "boom" 32000

/-- Example fixture: the fallback provider built over chainEx and behOne. -/
def fpEx : FallbackProvider :=
  { providers := [{ url := "rpc1", network := { name := "Ethereum", chainId := 1 } }],
    quorum := 1, network := { name := "Ethereum", chainId := 1 } }

/-- Example fixture: one successful and one failed outcome. -/
def outcomesEx : List Outcome :=
  [{ success := true, hash := "0xh1", address := "r1" },
   { success := false, errMsg := "boom", code := 32000, address := "r2" }]

/-! Shared helper lemmas. -/

instance exceptDecEq {ε α : Type} [DecidableEq ε] [DecidableEq α] :
    DecidableEq (Except ε α) := fun a b =>
  match a, b with
  | Except.error x, Except.error y =>
      if h : x = y then Decidable.isTrue (h ▸ rfl)
      else Decidable.isFalse fun hc => h (Except.error.inj hc)
  | Except.error _, Except.ok _ => Decidable.isFalse fun hc => Except.noConfusion hc
  | Except.ok _, Except.error _ => Decidable.isFalse fun hc => Except.noConfusion hc
  | Except.ok x, Except.ok y =>
      if h : x = y then Decidable.isTrue (h ▸ rfl)
      else Decidable.isFalse fun hc => h (Except.ok.inj hc)

lemma exceptToOption_none_of_isOk_false {ε α : Type} {e : Except ε α}
    (h : e.isOk = false) : e.toOption = none := by
  cases e <;> simp_all [Except.isOk, Except.toBool, Except.toOption]

lemma exceptToOption_some_of_isOk_true {ε α : Type} {e : Except ε α}
    (h : e.isOk = true) : ∃ p, e.toOption = some p := by
  cases e <;> simp_all [Except.isOk, Except.toBool, Except.toOption]

lemma nonceFalsy_some_ne_zero {c : Nat} (hc : c ≠ 0) :
    nonceFalsy (some c) = false := by
  simpa [nonceFalsy] using hc

/-- With a cached nonzero nonce the guard does not re-initialize:
allocation is pure local arithmetic returning a contiguous range. -/
lemma getNextBatchNonces_ne_zero (getNonce : Nat → Nat) (m : BatchNonceManager)
    {c : Nat} (h : m.currentNonce = some c) (hc : c ≠ 0) (count : Nat) :
    getNextBatchNonces getNonce m count =
      (List.range' m.nextAvailable count,
       { m with nextAvailable := m.nextAvailable + count }) := by
  simp [getNextBatchNonces, h, nonceFalsy_some_ne_zero hc, List.range'_eq_map_range]

/-- Unfolding of one iteration of the batch loop on a nonempty list. -/
lemma batchLoop_cons (getNonce : Nat → Nat) (m : BatchNonceManager)
    (a : String) (rest : List String) :
    batchLoop getNonce m (a :: rest) =
      ((a :: rest).take BATCH_SIZE,
       (getNextBatchNonces getNonce m ((a :: rest).take BATCH_SIZE).length).1) ::
      batchLoop getNonce
        (getNextBatchNonces getNonce m ((a :: rest).take BATCH_SIZE).length).2
        ((a :: rest).drop BATCH_SIZE) := by
  rw [batchLoop]

/-- Structure of the batch loop when the cached nonce is nonzero (so the
falsy re-initialization guard never fires): the batches partition the
address list in order, the nonces issued over all batches are the contiguous
range starting at the cursor, the number of batches is the ceiling of
length / 5, and every batch has at most BATCH_SIZE recipients with one nonce
each. -/
lemma batchLoop_spec (getNonce : Nat → Nat) {c : Nat} (hc : c ≠ 0) :
    ∀ (n : Nat) (addresses : List String) (m : BatchNonceManager),
      addresses.length ≤ n → m.currentNonce = some c →
      ((batchLoop getNonce m addresses).map Prod.fst).flatten = addresses ∧
      ((batchLoop getNonce m addresses).map Prod.snd).flatten =
        List.range' m.nextAvailable addresses.length ∧
      (batchLoop getNonce m addresses).length = (addresses.length + 4) / 5 ∧
      (∀ p ∈ batchLoop getNonce m addresses,
        p.1.length ≤ BATCH_SIZE ∧ p.2.length = p.1.length) := by
  intro n
  induction n with
  | zero =>
    intro addresses m hlen hm
    have hnil : addresses = [] := List.length_eq_zero.mp (Nat.le_zero.mp hlen)
    subst hnil
    simp [batchLoop]
  | succ n ih =>
    intro addresses m hlen hm
    match addresses with
    | [] => simp [batchLoop]
    | a :: rest =>
      have hbl : ((a :: rest).take BATCH_SIZE).length =
          min BATCH_SIZE (a :: rest).length := List.length_take _ _
      rw [batchLoop_cons,
        getNextBatchNonces_ne_zero getNonce m hm hc ((a :: rest).take BATCH_SIZE).length]
      have hlen2 : ((a :: rest).drop BATCH_SIZE).length ≤ n := by
        simp only [List.length_drop, BATCH_SIZE, List.length_cons] at *
        omega
      obtain ⟨ih1, ih2, ih3, ih4⟩ := ih ((a :: rest).drop BATCH_SIZE)
        { m with nextAvailable := m.nextAvailable + ((a :: rest).take BATCH_SIZE).length }
        hlen2 hm
      refine ⟨?_, ?_, ?_, ?_⟩
      · simp only [List.map_cons, List.flatten_cons, ih1]
        exact List.take_append_drop _ _
      · simp only [List.map_cons, List.flatten_cons, ih2]
        simp only [List.length_drop, List.length_range']
        rw [hbl]
        have happ := List.range'_append m.nextAvailable
          (min BATCH_SIZE (a :: rest).length) ((a :: rest).length - BATCH_SIZE) 1
        simp only [Nat.one_mul] at happ
        rw [happ]
        have harith : (a :: rest).length - BATCH_SIZE +
            min BATCH_SIZE (a :: rest).length = (a :: rest).length := by
          simp only [BATCH_SIZE, List.length_cons] at *
          omega
        rw [harith]
      · simp only [List.length_cons, ih3]
        simp only [List.length_drop, List.length_cons, BATCH_SIZE] at *
        omega
      · intro p hp
        rcases List.mem_cons.mp hp with hp | hp
        · subst hp
          refine ⟨?_, ?_⟩
          · simp only [hbl]
            exact Nat.min_le_left _ _
          · simp only [List.length_range']
        · exact ih4 p hp

/-! Claim theorems. -/

/-- C1 (code bug witness at the failing input): with session baseline b = 0
(a fresh account) and the chain still answering 0 to every wallet.getNonce()
read, allocate(3) yields [0, 1, 2] but the following allocate(2) yields
[0, 1], not [3, 4]: because JavaScript 0 is falsy, the guard
if (!this.currentNonce) re-runs initialize() on every allocation and resets
the cursor, so the issued nonces collide instead of being distinct,
increasing and gap-free. -/
theorem c1_zero_baseline_duplicate_nonces :
    (getNextBatchNonces (fun _ => 0)
      (initBaseline (fun _ => 0) BatchNonceManager.new) 3).1 = [0, 1, 2] ∧
    (getNextBatchNonces (fun _ => 0)
      ((getNextBatchNonces (fun _ => 0)
        (initBaseline (fun _ => 0) BatchNonceManager.new) 3).2) 2).1 = [0, 1] ∧
    (getNextBatchNonces (fun _ => 0)
      ((getNextBatchNonces (fun _ => 0)
        (initBaseline (fun _ => 0) BatchNonceManager.new) 3).2) 2).1 ≠ [3, 4] := by
  decide

/-- C2 counterexample: the equal-split claim fails on checkBalanceAndSend.
With two recipients and remainder 8 above the fee, the claimed per-recipient
share is 8 / 2 = 4, but the code sends the whole remainder 8 to the first
address only; and with remainder 1 (per-recipient share 8 / 2 = 0 claimed to
abort with BalanceTooLowToSplit) the code still sends 1 to the first address
instead of failing. -/
theorem c2_no_equal_split_counterexample :
    checkBalanceAndSend (gasFee + 8) ["rcptA", "rcptB"] =
      SweepAction.sent (some "rcptA") 8 ∧
    checkBalanceAndSend (gasFee + 8) ["rcptA", "rcptB"] ≠
      SweepAction.sent (some "rcptA") (8 / 2) ∧
    checkBalanceAndSend (gasFee + 1) ["rcptA", "rcptB"] =
      SweepAction.sent (some "rcptA") 1 := by
  refine ⟨by decide, by decide, by decide⟩

/-- C2 (amended): the variant reads the balance once and subtracts the fixed
estimated fee; whenever the remainder is positive it sends the ENTIRE
remainder in one transaction to the first address of the list (no division by
the recipient count, nothing to any other recipient), and whenever the
remainder is zero or negative it only prints an insufficient-balance notice
and sends nothing, without failing. -/
theorem c2_sweep_sends_whole_remainder (balance : Int) (addresses : List String) :
    (balance - gasFee > 0 →
      checkBalanceAndSend balance addresses =
        SweepAction.sent addresses.head? (balance - gasFee)) ∧
    (balance - gasFee ≤ 0 →
      checkBalanceAndSend balance addresses = SweepAction.insufficient) := by
  constructor
  · intro h
    simp [checkBalanceAndSend, h]
  · intro h
    simp only [checkBalanceAndSend]
    rw [if_neg (by omega : ¬ (balance - gasFee > 0))]

/-- C2 witness: the amended statement evaluated at balance gasFee + 8 with two
recipients, and at balance 0. -/
theorem c2_sweep_witness :
    checkBalanceAndSend (gasFee + 8) ["rcptA", "rcptB"] =
      SweepAction.sent (some "rcptA") 8 ∧
    checkBalanceAndSend 0 ["rcptA", "rcptB"] = SweepAction.insufficient := by
  constructor
  · have h := (c2_sweep_sends_whole_remainder (gasFee + 8) ["rcptA", "rcptB"]).1
      (by decide)
    simpa using h
  · exact (c2_sweep_sends_whole_remainder 0 ["rcptA", "rcptB"]).2 (by decide)

/-- C3 counterexample: an endpoint whose actual self-reported chain id is 999
while the expected descriptor pins chain id 1 is NOT rejected: because
getNetwork is overridden before the check, validation returns it as a live
handle as soon as its height query succeeds, so the mismatch branch never
fires for any endpoint behaviour. -/
theorem c3_mismatch_not_detected :
    createValidProvider "rpc1"
        { actualChainId := 999, blockNumberOk := true } chainEx =
      Except.ok { url := "rpc1", network := { name := "Ethereum", chainId := 1 } } ∧
    (999 : Nat) ≠ chainEx.chainId := by
  refine ⟨by decide, by decide⟩

/-- C3 (amended): endpoint validation never consults the endpoint's actual
self-reported chain identity: getNetwork is replaced by a constant returning
the pinned identity before the comparison, so the mismatch branch is
unreachable and the outcome depends only on the height query.  Every endpoint
whose height query succeeds is returned as a live handle carrying the pinned
identity, whatever chain it really is, and validation fails exactly when the
height query fails. -/
theorem c3_validation_ignores_reported_identity (url : String)
    (beh : EndpointBehavior) (chain : Chain) :
    (beh.blockNumberOk = true →
      createValidProvider url beh chain =
        Except.ok { url := url,
                    network := { name := chain.name, chainId := chain.chainId } }) ∧
    (beh.blockNumberOk = false →
      createValidProvider url beh chain =
        Except.error ("RPC Failed: " ++ url ++ " - getBlockNumber failed")) := by
  constructor <;> intro h <;> simp [createValidProvider, h]

/-- C3 witness: the amended statement evaluated at an endpoint really on chain
999 validated against pinned chain id 1, in both behaviours of the height
query. -/
theorem c3_witness :
    createValidProvider "rpc1"
        { actualChainId := 999, blockNumberOk := true } chainEx =
      Except.ok { url := "rpc1", network := { name := "Ethereum", chainId := 1 } } ∧
    createValidProvider "rpc2"
        { actualChainId := 999, blockNumberOk := false } chainEx =
      Except.error ("RPC Failed: " ++ "rpc2" ++ " - getBlockNumber failed") := by
  constructor
  · exact (c3_validation_ignores_reported_identity "rpc1"
      { actualChainId := 999, blockNumberOk := true } chainEx).1 rfl
  · exact (c3_validation_ignores_reported_identity "rpc2"
      { actualChainId := 999, blockNumberOk := false } chainEx).2 rfl

/-- C4 counterexample: at B = 10, a = 4, n = 3 both sufficiency checks fail,
but the reported quantity is the needed total 12, not the shortfall
4 * 3 - 10 = 2 claimed by the spec. -/
theorem c4_reports_needed_not_shortfall :
    erc20BalanceCheck 10 4 3 = Except.error 12 ∧
    nativeBalanceCheck 10 4 3 = Except.error 12 ∧
    erc20BalanceCheck 10 4 3 ≠ Except.error (4 * 3 - 10) ∧
    (4 * 3 - 10 : Nat) = 2 := by
  refine ⟨by decide, by decide, by decide, by decide⟩

/-- C4 (amended): for fixed-mode payout with balance B, per-recipient amount a
and n recipients, the check succeeds if and only if a * n ≤ B, in both the
ERC20 and the native branch; otherwise it throws an insufficient-funds error
whose message reports the needed total a * n (not the shortfall a * n - B). -/
theorem c4_fixed_mode_check (B a n : Nat) :
    (erc20BalanceCheck B a n = Except.ok () ↔ a * n ≤ B) ∧
    (nativeBalanceCheck B a n = Except.ok () ↔ a * n ≤ B) ∧
    (B < a * n →
      erc20BalanceCheck B a n = Except.error (a * n) ∧
      nativeBalanceCheck B a n = Except.error (a * n)) := by
  unfold erc20BalanceCheck nativeBalanceCheck
  refine ⟨?_, ?_, fun h => ?_⟩ <;> split <;> simp_all

/-- C4 witness: the amended statement at the spec's own numbers: B = 10,
a = 3, n = 3 succeeds; B = 10, a = 4, n = 3 fails reporting 12. -/
theorem c4_witness :
    erc20BalanceCheck 10 3 3 = Except.ok () ∧
    erc20BalanceCheck 10 4 3 = Except.error 12 ∧
    nativeBalanceCheck 10 4 3 = Except.error 12 := by
  refine ⟨?_, ?_, ?_⟩
  · exact (c4_fixed_mode_check 10 3 3).1.mpr (by decide)
  · exact ((c4_fixed_mode_check 10 4 3).2.2 (by decide)).1
  · exact ((c4_fixed_mode_check 10 4 3).2.2 (by decide)).2

/-- C10: with an empty validated recipient list, both fixed-mode sufficiency
checks pass for every amount and balance (a * 0 = 0 never exceeds B), the
batch loop runs zero iterations so nothing is dispatched, the total sent is
0, and the success-rate computation divides 0 by the recipient count 0 with
no guard, yielding NaN as JavaScript does. -/
theorem c10_empty_recipient_list (a B : Nat) (attempt : String → Nat → SubmitResult)
    (getNonce : Nat → Nat) :
    nativeBalanceCheck B a ([] : List String).length = Except.ok () ∧
    erc20BalanceCheck B a ([] : List String).length = Except.ok () ∧
    batchLoop getNonce (initBaseline getNonce BatchNonceManager.new) [] = [] ∧
    dispatchAll attempt getNonce (initBaseline getNonce BatchNonceManager.new) [] = [] ∧
    (summarize a [] []).totalSent = 0 ∧
    (summarize a [] []).successRate = JsNum.nan := by
  refine ⟨?_, ?_, ?_, ?_, ?_, ?_⟩ <;>
    simp [nativeBalanceCheck, erc20BalanceCheck, batchLoop, dispatchAll,
      summarize, jsDiv, jsMulConst]

/-- C5: the submission loop makes at most RETRY_ATTEMPTS = 3 attempts and
always yields exactly one outcome.  If the oracle first accepts at attempt
k ≤ 3, the outcome is Success recorded at attempt k with no further attempts,
after sleeping 1000 * 1, ..., 1000 * (k - 1) ms between the preceding failed
attempts; if all 3 attempts fail the outcome is Failure carrying the last
thrown message and code, exactly 3 attempts were made (never a 4th), and the
sleeps were 1000 and 2000 ms. -/
theorem c5_retry_policy (attempt : Nat → SubmitResult) (addr : String) :
    (sendWithRetry attempt addr).2.1 ≤ RETRY_ATTEMPTS ∧
    (∃ o, (sendWithRetry attempt addr).1 = some o) ∧
    (∀ k h, firstAcceptedAttempt attempt = some k →
      attempt k = SubmitResult.accepted h →
      sendWithRetry attempt addr =
        (some { success := true, hash := h, address := addr }, k,
         (List.range' 1 (k - 1)).map fun i => 1000 * i)) ∧
    (∀ msg code, firstAcceptedAttempt attempt = none →
      attempt RETRY_ATTEMPTS = SubmitResult.failed msg code →
      sendWithRetry attempt addr =
        (some { success := false, errMsg := msg, code := code, address := addr },
         RETRY_ATTEMPTS, [1000, 2000])) := by
  rcases h1 : attempt 1 with hh1 | ⟨m1, c1⟩ <;>
    rcases h2 : attempt 2 with hh2 | ⟨m2, c2⟩ <;>
      rcases h3 : attempt 3 with hh3 | ⟨m3, c3⟩ <;>
        simp [sendWithRetry, retryFrom, firstAcceptedAttempt, RETRY_ATTEMPTS,
          h1, h2, h3, List.range'] <;>
          (intro k hs hk hak; subst hk; simp_all [List.range'])

/-- C5 witness: an oracle failing twice then accepted yields Success at
attempt 3 after sleeps of 1000 and 2000 ms, and an always-failing oracle
yields Failure with the last error after exactly 3 attempts. -/
theorem c5_witness :
    sendWithRetry attemptOkThird "rcpt" =
      (some { success := true, hash := "0xabc", address := "rcpt" },
       3, [1000, 2000]) ∧
    sendWithRetry attemptAllFail "rcpt" =
      (some { success := false, errMsg := "boom", code := 32000, address := "rcpt" },
       RETRY_ATTEMPTS, [1000, 2000]) := by
  constructor
  · have h := (c5_retry_policy attemptOkThird "rcpt").2.2.1 3 "0xabc" rfl rfl
    simpa [List.range'] using h
  · exact (c5_retry_policy attemptAllFail "rcpt").2.2.2 "boom" 32000 rfl rfl

/-- C6 counterexample: the claimed nonce ranges fail at baseline b = 0.
With 12 recipients and every wallet.getNonce() read answering 0, the three
batches receive [0..4], [0..4], [0, 1] instead of the claimed
[0..4], [5..9], [10, 11]: the falsy guard re-initializes the cursor before
every batch. -/
theorem c6_zero_baseline_ranges_reset :
    (batchLoop (fun _ => 0) (initBaseline (fun _ => 0) BatchNonceManager.new)
        ["r01", "r02", "r03", "r04", "r05", "r06", "r07", "r08", "r09", "r10",
         "r11", "r12"]).map Prod.snd =
      [[0, 1, 2, 3, 4], [0, 1, 2, 3, 4], [0, 1]] ∧
    [[0, 1, 2, 3, 4], [0, 1, 2, 3, 4], [0, 1]] ≠
      [[0, 1, 2, 3, 4], [5, 6, 7, 8, 9], [10, 11]] := by
  refine ⟨?_, by decide⟩
  simp [batchLoop_cons, batchLoop, getNextBatchNonces, initBaseline, nonceFalsy,
    BATCH_SIZE, List.range_succ]

/-- C6 (amended): for every baseline b ≥ 1 (nonzero, so the falsy
re-initialization guard of the nonce manager never fires) the dispatcher
partitions the recipient list in order into ceil(L / 5) consecutive batches
of size at most 5, allocating each batch's nonces only after the previous
batch's, so that the issued nonces across batches form the contiguous range
starting at b; in particular 12 recipients give three batches of sizes
5, 5, 2 carrying exactly the nonce ranges b..b+4, b+5..b+9, b+10..b+11 in
that order.  (At b = 0 the ranges can reset, see the counterexample.) -/
theorem c6_batch_partition (b : Nat) (hb : 1 ≤ b) :
    (∀ addresses : List String,
      ((batchLoop (fun _ => b) (initBaseline (fun _ => b) BatchNonceManager.new)
          addresses).map Prod.fst).flatten = addresses ∧
      ((batchLoop (fun _ => b) (initBaseline (fun _ => b) BatchNonceManager.new)
          addresses).map Prod.snd).flatten = List.range' b addresses.length ∧
      (batchLoop (fun _ => b) (initBaseline (fun _ => b) BatchNonceManager.new)
          addresses).length = (addresses.length + BATCH_SIZE - 1) / BATCH_SIZE ∧
      (∀ p ∈ batchLoop (fun _ => b) (initBaseline (fun _ => b) BatchNonceManager.new)
          addresses, p.1.length ≤ BATCH_SIZE ∧ p.2.length = p.1.length)) ∧
    (∀ a0 a1 a2 a3 a4 a5 a6 a7 a8 a9 a10 a11 : String,
      batchLoop (fun _ => b) (initBaseline (fun _ => b) BatchNonceManager.new)
          [a0, a1, a2, a3, a4, a5, a6, a7, a8, a9, a10, a11] =
        [([a0, a1, a2, a3, a4], [b, b + 1, b + 2, b + 3, b + 4]),
         ([a5, a6, a7, a8, a9], [b + 5, b + 6, b + 7, b + 8, b + 9]),
         ([a10, a11], [b + 10, b + 11])]) := by
  have hb0 : (b == 0) = false := by simpa using (by omega : b ≠ 0)
  constructor
  · intro addresses
    have hm : (initBaseline (fun _ => b) BatchNonceManager.new).currentNonce = some b := by
      simp [initBaseline, BatchNonceManager.new]
    have hv : (initBaseline (fun _ => b) BatchNonceManager.new).nextAvailable = b := by
      simp [initBaseline, BatchNonceManager.new]
    obtain ⟨h1, h2, h3, h4⟩ := batchLoop_spec (fun _ => b) (by omega : b ≠ 0)
      addresses.length addresses (initBaseline (fun _ => b) BatchNonceManager.new)
      (le_refl _) hm
    refine ⟨h1, ?_, ?_, h4⟩
    · rw [h2, hv]
    · rw [h3]
      simp only [BATCH_SIZE]
      omega
  · intro a0 a1 a2 a3 a4 a5 a6 a7 a8 a9 a10 a11
    simp [batchLoop_cons, batchLoop, getNextBatchNonces, initBaseline, nonceFalsy,
      hb0, BATCH_SIZE, List.range_succ]

/-- C6 witness: the amended statement at baseline b = 7 and 12 concrete
recipients: batches of sizes 5, 5, 2 with nonce ranges 7..11, 12..16, 17..18. -/
theorem c6_witness :
    batchLoop (fun _ => 7) (initBaseline (fun _ => 7) BatchNonceManager.new)
        ["r01", "r02", "r03", "r04", "r05", "r06", "r07", "r08", "r09", "r10",
         "r11", "r12"] =
      [(["r01", "r02", "r03", "r04", "r05"], [7, 8, 9, 10, 11]),
       (["r06", "r07", "r08", "r09", "r10"], [12, 13, 14, 15, 16]),
       (["r11", "r12"], [17, 18])] := by
  have h := (c6_batch_partition 7 (by decide)).2
    "r01" "r02" "r03" "r04" "r05" "r06" "r07" "r08" "r09" "r10" "r11" "r12"
  simpa using h

/-- C7: when zero candidate endpoints validate, buildFallbackProvider throws
the no-working-endpoints error, the session pipeline surfaces that same error
(the catch in main exits, there is no retry of construction), and no
transaction intent is ever built. -/
theorem c7_no_live_endpoints (chain : Chain) (beh : String → EndpointBehavior)
    (getNonce : Nat → Nat) (addresses : List String) (parsedAmount gl : Nat)
    (h : ∀ url ∈ chain.rpc, (createValidProvider url (beh url) chain).isOk = false) :
    buildFallbackProvider chain beh =
      Except.error "No working RPC endpoints available" ∧
    sessionIntents chain beh getNonce addresses parsedAmount gl =
      Except.error "No working RPC endpoints available" := by
  have hnil : chain.rpc.filterMap
      (fun url => (createValidProvider url (beh url) chain).toOption) = [] :=
    List.filterMap_eq_nil_iff.mpr fun url hu => exceptToOption_none_of_isOk_false (h url hu)
  have hfp : buildFallbackProvider chain beh =
      Except.error "No working RPC endpoints available" := by
    simp [buildFallbackProvider, hnil]
  exact ⟨hfp, by simp [sessionIntents, hfp]⟩

/-- C7 witness: the chain fixture with both endpoints failing their height
query: construction fails and the intent list is never produced. -/
theorem c7_witness :
    buildFallbackProvider chainEx behDead =
      Except.error "No working RPC endpoints available" ∧
    sessionIntents chainEx behDead (fun _ => 5) ["rcptA"] 3 21000 =
      Except.error "No working RPC endpoints available" :=
  c7_no_live_endpoints chainEx behDead (fun _ => 5) ["rcptA"] 3 21000 (by decide)

/-- C8: whenever at least one candidate endpoint validates, construction
succeeds, and every constructed fallback provider reports exactly the pinned
identity of the chain descriptor (and quorum 1), whatever chain identity any
individual endpoint actually self-reports: the theorem quantifies over every
endpoint behaviour map. -/
theorem c8_pinned_identity (chain : Chain) (beh : String → EndpointBehavior)
    (h : ∃ url ∈ chain.rpc, (createValidProvider url (beh url) chain).isOk = true) :
    (buildFallbackProvider chain beh).isOk = true ∧
    ∀ fp, buildFallbackProvider chain beh = Except.ok fp →
      fp.network = { name := chain.name, chainId := chain.chainId } ∧ fp.quorum = 1 := by
  obtain ⟨url, hmem, hok⟩ := h
  obtain ⟨p, hp⟩ := exceptToOption_some_of_isOk_true hok
  have hmem2 : p ∈ chain.rpc.filterMap
      (fun u => (createValidProvider u (beh u) chain).toOption) :=
    List.mem_filterMap.mpr ⟨url, hmem, hp⟩
  have hne : ¬ (chain.rpc.filterMap
      (fun u => (createValidProvider u (beh u) chain).toOption)).length = 0 := by
    intro h0
    rw [List.length_eq_zero] at h0
    simp [h0] at hmem2
  constructor
  · simp [buildFallbackProvider, hne, Except.isOk, Except.toBool]
  · intro fp hfp
    simp [buildFallbackProvider, hne] at hfp
    rw [← hfp]
    exact ⟨rfl, rfl⟩

/-- C8 witness: over the chain fixture, with only rpc1 answering and rpc1
actually sitting on chain 999, construction succeeds and the provider built
is fpEx, whose reported identity is the pinned Ethereum chain id 1. -/
theorem c8_witness :
    (buildFallbackProvider chainEx behOne).isOk = true ∧
    fpEx.network = { name := "Ethereum", chainId := 1 } ∧ fpEx.quorum = 1 := by
  have h := c8_pinned_identity chainEx behOne ⟨"rpc1", by decide, by decide⟩
  refine ⟨h.1, ?_, ?_⟩
  · exact (h.2 fpEx (by decide)).1
  · exact (h.2 fpEx (by decide)).2

/-- C9: for every outcome list with s successes and f failures over
s + f = total recipients and fixed per-recipient amount a, the summary
reports totalSent = a * s and successRate = 100 * s / (s + f) percent
(as an exact rational; the code formats it to two decimals). -/
theorem c9_aggregation (a : Nat) (addresses : List String) (outcomes : List Outcome)
    (hlen : outcomes.length = addresses.length) (hpos : 0 < addresses.length) :
    (outcomes.filter fun o => o.success).length +
      (outcomes.filter fun o => !o.success).length = addresses.length ∧
    (summarize a addresses outcomes).totalSent =
      a * (outcomes.filter fun o => o.success).length ∧
    (summarize a addresses outcomes).successRate =
      JsNum.num (100 * ((outcomes.filter fun o => o.success).length : ℚ) /
        (((outcomes.filter fun o => o.success).length : ℚ) +
         ((outcomes.filter fun o => !o.success).length : ℚ))) := by
  have hsum : (outcomes.filter fun o => o.success).length +
      (outcomes.filter fun o => !o.success).length = addresses.length := by
    rw [← hlen]
    exact (List.length_eq_length_filter_add _).symm
  have hden : ((addresses.length : ℚ)) ≠ 0 := by
    exact_mod_cast Nat.pos_iff_ne_zero.mp hpos
  refine ⟨hsum, rfl, ?_⟩
  simp only [summarize, jsDiv, jsMulConst, if_neg hden]
  congr 1
  rw [← hsum]
  push_cast
  ring

/-- C9 witness: amount 5, two recipients, one success and one failure:
totalSent = 5 and successRate = 50 percent. -/
theorem c9_witness :
    (summarize 5 ["r1", "r2"] outcomesEx).totalSent = 5 ∧
    (summarize 5 ["r1", "r2"] outcomesEx).successRate = JsNum.num 50 := by
  have h := c9_aggregation 5 ["r1", "r2"] outcomesEx rfl (by decide)
  constructor
  · have h1 := h.2.1
    norm_num [outcomesEx, List.filter] at h1
    exact h1
  · have h2 := h.2.2
    norm_num [outcomesEx, List.filter] at h2
    exact h2

end TokenDisperser
